import Mathlib

/-!
Shallow embedding of the validation engine (`src/assets/app/core/Validator.js`)
and of the date formatting/parsing helpers (`src/assets/app/core/SAT.js`)
of the sat-frontend-framework repository, together with theorems settling
the specification claims about them.

The `Validator` class holds two pieces of session state (`errors : 0` and
`errorMessages : []` from the constructor) and mutates, per field, the
DOM-visible state: an `is-invalid` class, the text of the enclosing
validation-message region, and the attached jQuery event handlers.  We model
one validator instance together with the per-element UI state as a `World`.
jQuery elements are modelled as `Elem` values (tag, current value, checked
state, file list); the external moment.js library, user-supplied regexes and
user-supplied predicate functions are modelled as oracle parameters, exactly
mirroring the call shapes in the source.
-/

/-- A member of a file input's `files` list (name/type/size). -/
structure JFile where
  name : String
  type : String
  size : Nat
deriving DecidableEq, Repr

/-- The tag/type of a DOM form element, as discriminated by the jQuery
selector strings used in `Validator.js` (`input[type="text"]`, `select`,
`textarea`, ...). -/
inductive ETag where
  | text
  | email
  | password
  | number
  | radio
  | checkbox
  | file
  | tel
  | url
  | dateInput
  | datetimeLocal
  | timeInput
  | selectTag
  | textareaTag
deriving DecidableEq, Repr, BEq

/-- A jQuery element as read by the validator: its id attribute, tag,
current value (`element.val()`), the value of the checked member of a
radio/checkbox set (`element.filter(':checked').val()`, `none` when
undefined), and the file list (`element.get(0).files`). -/
structure Elem where
  id : String
  tag : ETag
  value : String
  checked : Option String
  files : List JFile
deriving DecidableEq, Repr

/-- Embedding of `element.is('input[type="t"]')` for a single selector alternative. -/
def isTag (f : Elem) (t : ETag) : Bool := f.tag == t

/-- Embedding of `element.is(s1 + "," + s2 + ...)`: a comma-separated jQuery selector
matches when any alternative matches. -/
def isAnyTag (f : Elem) (ts : List ETag) : Bool := ts.any (isTag f)

/-- One entry pushed onto `this.errorMessages`
(`{ element: ..., message: ... }`). -/
structure ErrorEntry where
  element : String
  message : String
deriving DecidableEq, Repr

/-- The DOM-visible state of one element: the `is-invalid` class on the
element, the `is-invalid` class on the related `.select2-selection`
sub-element, the html of the enclosing validation-message region, and the
event bindings attached via `element.on(events, handler)` (every handler the
validator attaches is `() => this.#setErrorMessage(element)`, so a binding
is recorded by its event list alone). -/
structure UIState where
  isInvalid : Bool
  select2Invalid : Bool
  displayed : String
  listeners : List (List String)
deriving DecidableEq, Repr

/-- The initial UI state of an untouched field. -/
def UIState.init : UIState := ⟨false, false, "", []⟩

/-- One validator instance (`this.errors`, `this.errorMessages`) together
with the per-element UI state, keyed by element id. -/
structure World where
  errors : Nat
  errorMessages : List ErrorEntry
  ui : String → UIState

/-- Embedding of `new Validator()`: `errors = 0`, `errorMessages = []`, untouched DOM. -/
def freshValidator : World := ⟨0, [], fun _ => UIState.init⟩

/-- Update the UI state of the element with id `i`. -/
def updUI (i : String) (g : UIState → UIState) (w : World) : World :=
  { w with ui := fun j => if j = i then g (w.ui j) else w.ui j }

/-- Embedding of `this.errorMessages.push(e)`. -/
def pushMsg (e : ErrorEntry) (w : World) : World :=
  { w with errorMessages := w.errorMessages ++ [e] }

/-- Embedding of `element.on(events, () => this.#setErrorMessage(element))`: append one
handler binding for the given events. -/
def addListener (f : Elem) (evs : List String) (w : World) : World :=
  updUI f.id (fun u => { u with listeners := u.listeners ++ [evs] }) w

/-- Embedding of `Validator.#setErrorMessage(element, message = '')` (lines 1091-1099):
for a select, toggle `is-invalid` on the related `.select2-selection` and
push `{element: id, message}` when the message is non-empty; then toggle
`is-invalid` on the element itself, push `{element: '#'+id, message}` when
non-empty, and write the message into the validation-message region. -/
def setErrorMessage (f : Elem) (message : String) (w : World) : World :=
  let w1 :=
    if isTag f .selectTag then
      let w' := updUI f.id (fun u => { u with select2Invalid := message != "" }) w
      if message != "" then pushMsg ⟨f.id, message⟩ w' else w'
    else w
  let w2 := updUI f.id
    (fun u => { u with isInvalid := message != "", displayed := message }) w1
  if message != "" then pushMsg ⟨"#" ++ f.id, message⟩ w2 else w2

/-- Embedding of `message !== '' ? message : defaultMsg`. -/
def resolveMsg (message defaultMsg : String) : String :=
  if message != "" then message else defaultMsg

/-- The failure arm shared by every validation method: `this.errors++`,
display the resolved message, attach the re-check handler. -/
def failWith (f : Elem) (resolvedMsg : String) (evs : List String)
    (w : World) : World :=
  addListener f evs (setErrorMessage f resolvedMsg { w with errors := w.errors + 1 })

/-- The skeleton shared by every single-branch validation method of the
class: clear the message region, then on `cond` record a failure with the
given default message and events and return false, else return true. -/
def guardedCheck (f : Elem) (cond : Bool) (defaultMsg : String)
    (evs : List String) (message : String) (w : World) : World × Bool :=
  let w := setErrorMessage f "" w
  if cond then (failWith f (resolveMsg message defaultMsg) evs w, false)
  else (w, true)

/-- Embedding of `Validator.throwErrorMessage(message)` (lines 1073-1078): throw when
`this.errors >= 1`, else fall through (the `console.error` log does not
touch the session state). -/
def throwErrorMessage (message : String) (w : World) : Except String World :=
  if w.errors ≥ 1 then Except.error message else Except.ok w

/-- The ECMAScript `\s` class, restricted to the ASCII whitespace the
repository's inputs use. -/
def jsSpace (c : Char) : Bool :=
  c = ' ' || c = '\t' || c = '\n' || c = '\r' || c = '\x0b' || c = '\x0c'

/-- The ECMAScript `\w` class: `[A-Za-z0-9_]`. -/
def isWordChar (c : Char) : Bool := c.isAlpha || c.isDigit || c = '_'

/-- Numeric value of a list of decimal digit characters. -/
def natDigitsVal (ds : List Char) : Nat :=
  ds.foldl (fun a c => a * 10 + (c.toNat - '0'.toNat)) 0

/-- JavaScript `String.split(sep)` for a one-character separator
(`"".split(s)` gives `[""]`, separators at the ends give empty parts). -/
def splitChars (sep : Char) : List Char → List (List Char)
  | [] => [[]]
  | c :: r =>
    let rest := splitChars sep r
    if c = sep then [] :: rest
    else
      match rest with
      | h :: t => (c :: h) :: t
      | [] => [[c]]

/-- ASCII `toLowerCase`. -/
def lowerChar (c : Char) : Char :=
  if 'A' ≤ c ∧ c ≤ 'Z' then Char.ofNat (c.toNat + 32) else c

/-- Embedding of `v.toLowerCase()` over ASCII text. -/
def lowerStr (s : String) : String := String.mk (s.toList.map lowerChar)

/-- A JavaScript number as produced by `parseFloat`: NaN, a signed
infinity, or a finite decimal value, kept exact as `mant / 10 ^ scale`. -/
inductive JSNum where
  | nan
  | inf (pos : Bool)
  | dec (mant : Int) (scale : Nat)
deriving DecidableEq

/-- The JavaScript `<` comparison on numbers: any comparison involving NaN
is false; finite decimals compare by cross-multiplication. -/
def jsLt : JSNum → JSNum → Bool
  | .nan, _ => false
  | _, .nan => false
  | .inf true, _ => false
  | .inf false, .inf false => false
  | .inf false, _ => true
  | .dec _ _, .inf true => true
  | .dec _ _, .inf false => false
  | .dec a m, .dec b n => a * (10 : Int) ^ n < b * (10 : Int) ^ m

/-- The JavaScript `>` comparison on numbers. -/
def jsGt (a b : JSNum) : Bool := jsLt b a

/-- ECMAScript `parseFloat`: skip leading whitespace, read an optional
sign, then the longest prefix that is a decimal literal (`Infinity`,
`digits[.digits][exponent]` or `.digits[exponent]`); NaN when no digit is
found. -/
def jsParseFloat (s : String) : JSNum :=
  let l := s.toList.dropWhile jsSpace
  let signedNeg : Bool × List Char :=
    match l with
    | '-' :: r => (true, r)
    | '+' :: r => (false, r)
    | _ => (false, l)
  let neg := signedNeg.1
  let l1 := signedNeg.2
  if l1.take 8 = "Infinity".toList then JSNum.inf (!neg)
  else
    let intPart := l1.takeWhile Char.isDigit
    let r2 := l1.dropWhile Char.isDigit
    let fracSplit : List Char × List Char :=
      match r2 with
      | '.' :: rest => (rest.takeWhile Char.isDigit, rest.dropWhile Char.isDigit)
      | _ => ([], r2)
    let fracPart := fracSplit.1
    let r3 := fracSplit.2
    if intPart.isEmpty && fracPart.isEmpty then JSNum.nan
    else
      let mant : Int := (natDigitsVal (intPart ++ fracPart) : Int)
      let expVal : Int :=
        match r3 with
        | e :: rest =>
          if e = 'e' || e = 'E' then
            let esignSplit : Int × List Char :=
              match rest with
              | '+' :: rr => (1, rr)
              | '-' :: rr => (-1, rr)
              | _ => (1, rest)
            let eds := esignSplit.2.takeWhile Char.isDigit
            if eds.isEmpty then 0 else esignSplit.1 * (natDigitsVal eds : Int)
          else 0
        | [] => 0
      let signedMant := if neg then -mant else mant
      if 0 ≤ expVal then
        JSNum.dec (signedMant * (10 : Int) ^ expVal.toNat) fracPart.length
      else JSNum.dec signedMant (fracPart.length + (-expVal).toNat)

/-- Strip the factors of ten a finite decimal shares between mantissa and
scale (`5/10^1` is the number JavaScript prints as "0.5", `50/10^1` as
"5"). -/
def canonDec : Int → Nat → Int × Nat
  | a, 0 => (a, 0)
  | a, m + 1 => if a % 10 = 0 then canonDec (a / 10) m else (a, m + 1)

/-- Rendering of a JavaScript number inside a template literal (exact for
the finite decimals `parseFloat` produces; the bounds the repository's
callers pass are integers). -/
def numStr : JSNum → String
  | .nan => "NaN"
  | .inf true => "Infinity"
  | .inf false => "-Infinity"
  | .dec a m =>
    let c := canonDec a m
    let digits := toString c.1.natAbs
    let sign := if c.1 < 0 then "-" else ""
    if c.2 = 0 then sign ++ digits
    else
      let padded :=
        if digits.length ≤ c.2 then
          String.mk (List.replicate (c.2 + 1 - digits.length) '0') ++ digits
        else digits
      sign ++ String.mk (padded.toList.take (padded.length - c.2)) ++ "." ++
        String.mk (padded.toList.drop (padded.length - c.2))

/-- Embedding of `/^[a-zA-Z.,\s]*$/.test(v)` (the `alphabetic` regex). -/
def alphabeticTest (v : String) : Bool :=
  v.toList.all (fun c => c.isAlpha || c = '.' || c = ',' || jsSpace c)

/-- Embedding of `/^[a-zA-Z0-9\s]+$/.test(v)` (the `alphanumeric` regex). -/
def alphanumericTest (v : String) : Bool :=
  !v.toList.isEmpty && v.toList.all (fun c => c.isAlpha || c.isDigit || jsSpace c)

/-- Embedding of `/^[0-9]+$/.test(v)` (the `numeric` regex). -/
def numericTest (v : String) : Bool :=
  !v.toList.isEmpty && v.toList.all Char.isDigit

/-- Embedding of `/^[0-9+\s()-]+$/.test(v)` (the `phoneNumber` regex). -/
def phoneTest (v : String) : Bool :=
  !v.toList.isEmpty &&
    v.toList.all (fun c => c.isDigit || c = '+' || jsSpace c || c = '(' || c = ')' || c = '-')

/-- Embedding of `/^[^\s@]+@[^\s@]+\.[^\s@]+$/.test(v)` (the `email` regex): the string
decomposes as `A@B.C` with `A`, `B`, `C` non-empty and free of whitespace
and `@`.  Equivalently: no whitespace, exactly one `@` and not in first
position, and a `.` strictly inside the part after the `@`. -/
def emailTest (v : String) : Bool :=
  let l := v.toList
  l.countP (fun c => c = '@') = 1 &&
  l.all (fun c => !jsSpace c) &&
  !(l.takeWhile (fun c => c ≠ '@')).isEmpty &&
  (((l.dropWhile (fun c => c ≠ '@')).drop 1).drop 1).dropLast.contains '.'

/-- Embedding of `[\w\-]` (the character class of the `url` regex's host and path
segments). -/
def wordDash (c : Char) : Bool := isWordChar c || c = '-'

/-- Embedding of `/^(https?:\/\/)?([\w\-]+\.)+[\w\-]+(\/[\w\-]*)*$/.test(v)` (the `url`
regex).  After the optional scheme the host is two or more non-empty
dot-separated `[\w-]+` segments (which cannot contain `/`), followed by
path parts each introduced by `/` over `[\w-]` (which cannot contain `.`);
both scheme alternatives of the backtracking engine are tried. -/
def urlTest (v : String) : Bool :=
  let test (l : List Char) : Bool :=
    let host := l.takeWhile (fun c => c ≠ '/')
    let path := l.dropWhile (fun c => c ≠ '/')
    let segs := splitChars '.' host
    decide (segs.length ≥ 2) &&
      segs.all (fun s => !s.isEmpty && s.all wordDash) &&
      path.all (fun c => wordDash c || c = '/')
  let l := v.toList
  (if l.take 7 = "http://".toList then test (l.drop 7) else false) ||
  (if l.take 8 = "https://".toList then test (l.drop 8) else false) ||
  test l

/-- The calls into the external moment.js library made by the date/time
methods, abstracted as an oracle (moment is an excluded external
collaborator of the engine): strict-parse validity, the `isBefore` /
`isAfter` / inclusive `isBetween` comparisons of a strictly parsed value
against strictly parsed bounds, and `moment(b, fmt, true).format(fmt)`. -/
structure MomentOracle where
  isValidStrict : String → String → Bool
  isBefore : String → String → String → Bool
  isAfter : String → String → String → Bool
  isBetweenIncl : String → String → String → String → Bool
  reformat : String → String → String

/-- Embedding of `(maxSize / (1024 * 1024)).toFixed(2)` for the non-negative
byte-to-MB ratio used by `fileSize`'s default message: the ratio rounded
half-up to two decimals. -/
def toFixed2MB (maxSize : Nat) : String :=
  let scaled : Nat := (maxSize * 200 + 1048576) / (2 * 1048576)
  let frac := scaled % 100
  toString (scaled / 100) ++ "." ++
    (if frac < 10 then "0" ++ toString frac else toString frac)

namespace Validator

/-- Embedding of `Validator.required(element, message = '')` (lines 195-215): three
branches by field category — text-like with blank value, radio/checkbox set
with nothing checked, file input with zero files. -/
def required (f : Elem) (message : String) (w : World) : World × Bool :=
  let w := setErrorMessage f "" w
  if isAnyTag f [.text, .email, .password, .number, .selectTag, .textareaTag]
      && f.value == "" then
    (failWith f (resolveMsg message "Wajib diisi.") ["keyup", "change"] w, false)
  else if isAnyTag f [.radio, .checkbox] && f.checked.isNone then
    (failWith f (resolveMsg message "Wajib dipilih.") ["change"] w, false)
  else if isTag f .file && f.files.length == 0 then
    (failWith f (resolveMsg message "Wajib diunggah.") ["change"] w, false)
  else (w, true)

/-- Embedding of `Validator.requiredIf(element, otherElement, expectedValue, message)`
(lines 231-240): required only when the other element holds the expected
value; no tag guard. -/
def requiredIf (f other : Elem) (expectedValue : String) (message : String)
    (w : World) : World × Bool :=
  guardedCheck f (other.value == expectedValue && f.value == "")
    "Field ini wajib diisi." ["keyup", "change"] message w

/-- Embedding of `Validator.equalTo(element, targetElement, message)` (lines 255-264). -/
def equalTo (f target : Elem) (message : String) (w : World) : World × Bool :=
  guardedCheck f (f.value != target.value)
    "Input tidak sama." ["keyup", "change"] message w

/-- Embedding of `Validator.boolean(element, message)` (lines 278-289): membership of
`element.val()` in the valid-values list; since a jQuery `val()` is a
string, only the string members `'true'`, `'false'`, `'1'`, `'0'` of the
source's list `[true, false, 'true', 'false', 1, 0, '1', '0']` can compare
equal under `includes`' strict equality. -/
def boolean (f : Elem) (message : String) (w : World) : World × Bool :=
  guardedCheck f (!(["true", "false", "1", "0"].contains f.value))
    "Nilai harus berupa boolean." ["change"] message w

/-- Embedding of `Validator.minLength(element, length, message)` (lines 308-318). -/
def minLength (f : Elem) (length : Nat) (message : String)
    (w : World) : World × Bool :=
  guardedCheck f
    (isAnyTag f [.text, .email, .password, .textareaTag]
      && decide (f.value.length < length))
    ("Minimal " ++ toString length ++ " karakter.") ["keyup"] message w

/-- Embedding of `Validator.maxLength(element, length, message)` (lines 333-343). -/
def maxLength (f : Elem) (length : Nat) (message : String)
    (w : World) : World × Bool :=
  guardedCheck f
    (isAnyTag f [.text, .email, .password, .textareaTag]
      && decide (f.value.length > length))
    ("Maksimal " ++ toString length ++ " karakter.") ["keyup"] message w

/-- Embedding of `Validator.alphabetic(element, message)` (lines 357-369): note the
negated guard — a non-text/textarea element fails outright. -/
def alphabetic (f : Elem) (message : String) (w : World) : World × Bool :=
  guardedCheck f
    (!(isAnyTag f [.text, .textareaTag]) || !(alphabeticTest f.value))
    "Tidak boleh mengandung angka." ["keyup", "change"] message w

/-- Embedding of `Validator.alphanumeric(element, message)` (lines 383-393). -/
def alphanumeric (f : Elem) (message : String) (w : World) : World × Bool :=
  guardedCheck f
    (isAnyTag f [.text, .textareaTag] && !(alphanumericTest f.value))
    "Hanya boleh mengandung huruf dan angka." ["keyup", "change"] message w

/-- Embedding of `Validator.pattern(element, regex, message)` (lines 409-418): the
caller-supplied regex is modelled by its `test` function. -/
def patternCheck (f : Elem) (regexTest : String → Bool) (message : String)
    (w : World) : World × Bool :=
  guardedCheck f
    (isAnyTag f [.text, .textareaTag] && !(regexTest f.value))
    "Format input tidak sesuai." ["keyup", "change"] message w

/-- Embedding of `Validator.custom(element, validatorFunction, message)`
(lines 435-444): no tag guard. -/
def custom (f : Elem) (validatorFunction : String → Bool) (message : String)
    (w : World) : World × Bool :=
  guardedCheck f (!(validatorFunction f.value))
    "Input tidak valid." ["keyup", "change"] message w

/-- Embedding of `Validator.numeric(element, message)` (lines 462-472). -/
def numeric (f : Elem) (message : String) (w : World) : World × Bool :=
  guardedCheck f
    (isAnyTag f [.text, .number, .textareaTag] && !(numericTest f.value))
    "Hanya boleh mengandung angka." ["keyup", "change"] message w

/-- Embedding of `Validator.minValue(element, minValue, message)` (lines 487-497):
`parseFloat` then the JavaScript `<` comparison (false on NaN). -/
def minValue (f : Elem) (minV : JSNum) (message : String)
    (w : World) : World × Bool :=
  guardedCheck f
    (isAnyTag f [.number, .text] && jsLt (jsParseFloat f.value) minV)
    ("Nilai minimal adalah " ++ numStr minV ++ ".") ["keyup", "change"] message w

/-- Embedding of `Validator.maxValue(element, maxValue, message)` (lines 512-522). -/
def maxValue (f : Elem) (maxV : JSNum) (message : String)
    (w : World) : World × Bool :=
  guardedCheck f
    (isAnyTag f [.number, .text] && jsGt (jsParseFloat f.value) maxV)
    ("Nilai maksimal adalah " ++ numStr maxV ++ ".") ["keyup", "change"] message w

/-- Embedding of `Validator.range(element, minValue, maxValue, message)`
(lines 538-548): fails when `value < minValue || value > maxValue`; with a
NaN value both comparisons are false, so the check passes. -/
def range (f : Elem) (minV maxV : JSNum) (message : String)
    (w : World) : World × Bool :=
  guardedCheck f
    (isAnyTag f [.number, .text] &&
      (jsLt (jsParseFloat f.value) minV
        || jsGt (jsParseFloat f.value) maxV))
    ("Nilai harus antara " ++ numStr minV ++ " dan " ++ numStr maxV ++ ".")
    ["keyup", "change"] message w

/-- Embedding of `Validator.fileType(element, allowedTypes, message)` (lines 567-579):
only a file input with at least one file whose first file's MIME type is
not allowed fails. -/
def fileType (f : Elem) (allowedTypes : List String) (message : String)
    (w : World) : World × Bool :=
  guardedCheck f
    (isTag f .file && decide (f.files.length > 0) &&
      !(allowedTypes.contains ((f.files.headD ⟨"", "", 0⟩).type)))
    "Format berkas tidak sesuai." ["change"] message w

/-- Embedding of `Validator.fileSize(element, maxSize, message)` (lines 594-608). -/
def fileSize (f : Elem) (maxSize : Nat) (message : String)
    (w : World) : World × Bool :=
  guardedCheck f
    (isTag f .file && decide (f.files.length > 0) &&
      decide ((f.files.headD ⟨"", "", 0⟩).size > maxSize))
    ("Ukuran file tidak boleh lebih dari " ++ toFixed2MB maxSize ++ " MB.")
    ["change"] message w

/-- Embedding of `file.name.split('.').pop().toLowerCase()`. -/
def fileExtOf (name : String) : String :=
  lowerStr (String.mk ((splitChars '.' name.toList).getLastD []))

/-- Embedding of `Validator.fileExtension(element, allowedExtensions, message)`
(lines 623-636). -/
def fileExtension (f : Elem) (allowedExtensions : List String)
    (message : String) (w : World) : World × Bool :=
  guardedCheck f
    (isTag f .file && decide (f.files.length > 0) &&
      !(allowedExtensions.contains (fileExtOf (f.files.headD ⟨"", "", 0⟩).name)))
    "Ekstensi file tidak diizinkan." ["change"] message w

/-- Embedding of `Validator.date(element, format, message)` (lines 655-666). -/
def date (f : Elem) (format message : String) (o : MomentOracle)
    (w : World) : World × Bool :=
  guardedCheck f
    (isAnyTag f [.text, .dateInput] && !(o.isValidStrict f.value format))
    ("Tanggal tidak sesuai format " ++ format ++ ".") ["keyup", "change"] message w

/-- Embedding of `Validator.datetime(element, format, message)` (lines 681-692). -/
def datetime (f : Elem) (format message : String) (o : MomentOracle)
    (w : World) : World × Bool :=
  guardedCheck f
    (isAnyTag f [.text, .datetimeLocal] && !(o.isValidStrict f.value format))
    ("Format tanggal dan waktu tidak sesuai (" ++ format ++ ").")
    ["keyup", "change"] message w

/-- Embedding of `Validator.time(element, format, message)` (lines 707-718). -/
def time (f : Elem) (format message : String) (o : MomentOracle)
    (w : World) : World × Bool :=
  guardedCheck f
    (isAnyTag f [.text, .timeInput] && !(o.isValidStrict f.value format))
    ("Format waktu tidak sesuai (" ++ format ++ ").") ["keyup", "change"] message w

/-- Embedding of `Validator.minDate(element, minDate, format, message)`
(lines 734-747): an unparseable value fails regardless of comparison. -/
def minDate (f : Elem) (minD format message : String) (o : MomentOracle)
    (w : World) : World × Bool :=
  guardedCheck f
    (isAnyTag f [.text, .dateInput] &&
      (!(o.isValidStrict f.value format) || o.isBefore f.value minD format))
    ("Tanggal tidak boleh sebelum " ++ o.reformat minD format ++ ".")
    ["keyup", "change"] message w

/-- Embedding of `Validator.maxDate(element, maxDate, format, message)` (lines 763-776). -/
def maxDate (f : Elem) (maxD format message : String) (o : MomentOracle)
    (w : World) : World × Bool :=
  guardedCheck f
    (isAnyTag f [.text, .dateInput] &&
      (!(o.isValidStrict f.value format) || o.isAfter f.value maxD format))
    ("Tanggal tidak boleh setelah " ++ o.reformat maxD format ++ ".")
    ["keyup", "change"] message w

/-- Embedding of `Validator.minDatetime(element, minDatetime, format, message)`
(lines 792-805). -/
def minDatetime (f : Elem) (minD format message : String) (o : MomentOracle)
    (w : World) : World × Bool :=
  guardedCheck f
    (isAnyTag f [.text, .datetimeLocal] &&
      (!(o.isValidStrict f.value format) || o.isBefore f.value minD format))
    ("Tanggal dan waktu tidak boleh sebelum " ++ o.reformat minD format ++ ".")
    ["keyup", "change"] message w

/-- Embedding of `Validator.maxDatetime(element, maxDatetime, format, message)`
(lines 821-834). -/
def maxDatetime (f : Elem) (maxD format message : String) (o : MomentOracle)
    (w : World) : World × Bool :=
  guardedCheck f
    (isAnyTag f [.text, .datetimeLocal] &&
      (!(o.isValidStrict f.value format) || o.isAfter f.value maxD format))
    ("Tanggal dan waktu tidak boleh setelah " ++ o.reformat maxD format ++ ".")
    ["keyup", "change"] message w

/-- Embedding of `Validator.dateBetween(element, startDate, endDate, format, message)`
(lines 851-865). -/
def dateBetween (f : Elem) (startD endD format message : String)
    (o : MomentOracle) (w : World) : World × Bool :=
  guardedCheck f
    (isAnyTag f [.text, .dateInput] &&
      (!(o.isValidStrict f.value format)
        || !(o.isBetweenIncl f.value startD endD format)))
    ("Tanggal harus antara " ++ o.reformat startD format ++ " dan "
      ++ o.reformat endD format ++ ".")
    ["keyup", "change"] message w

/-- Embedding of `Validator.datetimeBetween(element, startDatetime, endDatetime, format,
message)` (lines 882-896). -/
def datetimeBetween (f : Elem) (startD endD format message : String)
    (o : MomentOracle) (w : World) : World × Bool :=
  guardedCheck f
    (isAnyTag f [.text, .datetimeLocal] &&
      (!(o.isValidStrict f.value format)
        || !(o.isBetweenIncl f.value startD endD format)))
    ("Tanggal dan waktu harus antara " ++ o.reformat startD format ++ " dan "
      ++ o.reformat endD format ++ ".")
    ["keyup", "change"] message w

/-- Embedding of `Validator.email(element, message)` (lines 914-925); note the handler
is attached for `keyup` only. -/
def email (f : Elem) (message : String) (w : World) : World × Bool :=
  guardedCheck f
    (isAnyTag f [.text, .email] && !(emailTest f.value))
    "Email tidak sesuai format" ["keyup"] message w

/-- Embedding of `Validator.url(element, message)` (lines 939-949). -/
def url (f : Elem) (message : String) (w : World) : World × Bool :=
  guardedCheck f
    (isAnyTag f [.text, .url] && !(urlTest f.value))
    "URL tidak sesuai format." ["keyup", "change"] message w

/-- Embedding of `Validator.phoneNumber(element, message)` (lines 963-973). -/
def phoneNumber (f : Elem) (message : String) (w : World) : World × Bool :=
  guardedCheck f
    (isAnyTag f [.text, .tel] && !(phoneTest f.value))
    "Nomor telepon tidak valid." ["keyup", "change"] message w

/-- Embedding of `Validator.asyncValidation(element, asyncValidatorFunction, message)`
(lines 998-1014).  The caller-supplied promise-returning predicate is
modelled as an `Except`-valued function (`.error` = rejected promise).
The `try/catch` recovers a rejection locally: `this.errors++`, the generic
message is displayed (with no re-check handler attached, unlike the
resolved-false arm), and the call resolves to `false`; the total return
type `World × Bool` reflects that no rejection escapes to the caller. -/
def asyncValidation (f : Elem) (pred : String → Except String Bool)
    (message : String) (w : World) : World × Bool :=
  let w := setErrorMessage f "" w
  match pred f.value with
  | Except.ok true => (w, true)
  | Except.ok false =>
    (failWith f (resolveMsg message "Input tidak valid.") ["keyup", "change"] w,
      false)
  | Except.error _ =>
    (setErrorMessage f "Terjadi kesalahan saat validasi."
      { w with errors := w.errors + 1 }, false)

end Validator

/-- Firing a DOM event on an element runs `#setErrorMessage(element)` once
per attached binding whose event list contains the event (every handler the
validator attaches is the clearing closure). -/
def iterClear (f : Elem) : Nat → World → World
  | 0, w => w
  | n + 1, w => iterClear f n (setErrorMessage f "" w)

/-- The user changes the element's value and the given DOM event fires. -/
def triggerEvent (f : Elem) (ev : String) (w : World) : World :=
  iterClear f (((w.ui f.id).listeners.filter (fun evs => evs.contains ev)).length) w

/-- A `{ method, args }` tuple as consumed by `Validator.validateFields`:
one constructor per synchronous validation method, carrying that method's
arguments. -/
inductive VRule where
  | required (f : Elem) (message : String)
  | requiredIf (f other : Elem) (expectedValue message : String)
  | equalTo (f target : Elem) (message : String)
  | boolean (f : Elem) (message : String)
  | minLength (f : Elem) (length : Nat) (message : String)
  | maxLength (f : Elem) (length : Nat) (message : String)
  | alphabetic (f : Elem) (message : String)
  | alphanumeric (f : Elem) (message : String)
  | patternCheck (f : Elem) (regexTest : String → Bool) (message : String)
  | custom (f : Elem) (validatorFunction : String → Bool) (message : String)
  | numeric (f : Elem) (message : String)
  | minValue (f : Elem) (minV : JSNum) (message : String)
  | maxValue (f : Elem) (maxV : JSNum) (message : String)
  | range (f : Elem) (minV maxV : JSNum) (message : String)
  | fileType (f : Elem) (allowedTypes : List String) (message : String)
  | fileSize (f : Elem) (maxSize : Nat) (message : String)
  | fileExtension (f : Elem) (allowedExtensions : List String) (message : String)
  | date (f : Elem) (format message : String) (o : MomentOracle)
  | datetime (f : Elem) (format message : String) (o : MomentOracle)
  | time (f : Elem) (format message : String) (o : MomentOracle)
  | minDate (f : Elem) (minD format message : String) (o : MomentOracle)
  | maxDate (f : Elem) (maxD format message : String) (o : MomentOracle)
  | minDatetime (f : Elem) (minD format message : String) (o : MomentOracle)
  | maxDatetime (f : Elem) (maxD format message : String) (o : MomentOracle)
  | dateBetween (f : Elem) (startD endD format message : String) (o : MomentOracle)
  | datetimeBetween (f : Elem) (startD endD format message : String) (o : MomentOracle)
  | email (f : Elem) (message : String)
  | url (f : Elem) (message : String)
  | phoneNumber (f : Elem) (message : String)

/-- Embedding of `this[method](...args)`: dispatch one rule to its method. -/
def runRule (r : VRule) (w : World) : World × Bool :=
  match r with
  | .required f m => Validator.required f m w
  | .requiredIf f o e m => Validator.requiredIf f o e m w
  | .equalTo f t m => Validator.equalTo f t m w
  | .boolean f m => Validator.boolean f m w
  | .minLength f n m => Validator.minLength f n m w
  | .maxLength f n m => Validator.maxLength f n m w
  | .alphabetic f m => Validator.alphabetic f m w
  | .alphanumeric f m => Validator.alphanumeric f m w
  | .patternCheck f g m => Validator.patternCheck f g m w
  | .custom f g m => Validator.custom f g m w
  | .numeric f m => Validator.numeric f m w
  | .minValue f v m => Validator.minValue f v m w
  | .maxValue f v m => Validator.maxValue f v m w
  | .range f a b m => Validator.range f a b m w
  | .fileType f ts m => Validator.fileType f ts m w
  | .fileSize f n m => Validator.fileSize f n m w
  | .fileExtension f es m => Validator.fileExtension f es m w
  | .date f fmt m o => Validator.date f fmt m o w
  | .datetime f fmt m o => Validator.datetime f fmt m o w
  | .time f fmt m o => Validator.time f fmt m o w
  | .minDate f d fmt m o => Validator.minDate f d fmt m o w
  | .maxDate f d fmt m o => Validator.maxDate f d fmt m o w
  | .minDatetime f d fmt m o => Validator.minDatetime f d fmt m o w
  | .maxDatetime f d fmt m o => Validator.maxDatetime f d fmt m o w
  | .dateBetween f s e fmt m o => Validator.dateBetween f s e fmt m o w
  | .datetimeBetween f s e fmt m o => Validator.datetimeBetween f s e fmt m o w
  | .email f m => Validator.email f m w
  | .url f m => Validator.url f m w
  | .phoneNumber f m => Validator.phoneNumber f m w

/-- Embedding of `Validator.validateFields(validations)` (lines 1054-1060): run every
rule in order with `forEach` (discarding each boolean, so no
short-circuit), then `this.throwErrorMessage()` with its default
message. -/
def validateFields (validations : List VRule) (w : World) : Except String World :=
  throwErrorMessage "Masih ada form yang belum diisi atau salah."
    (validations.foldl (fun acc v => (runRule v acc).1) w)

/-- Any state-touching operation on one validator instance: a synchronous
check, an awaited asynchronous check, or a DOM event firing the attached
re-check handlers. -/
inductive VOp where
  | rule (r : VRule)
  | asyncV (f : Elem) (pred : String → Except String Bool) (message : String)
  | trigger (f : Elem) (ev : String)

/-- Effect of one operation on the instance. -/
def stepOp (w : World) (op : VOp) : World :=
  match op with
  | .rule r => (runRule r w).1
  | .asyncV f p m => (Validator.asyncValidation f p m w).1
  | .trigger f ev => triggerEvent f ev w

/-- Run a sequence of operations. -/
def runOps (ops : List VOp) (w : World) : World := ops.foldl stepOp w

/-- The `errorMessages` entries `#setErrorMessage` pushes for one failure
with a non-empty message: two for a select (one id-keyed, one
selector-keyed), one otherwise. -/
def entriesFor (f : Elem) (m : String) : List ErrorEntry :=
  if isTag f .selectTag then [⟨f.id, m⟩, ⟨"#" ++ f.id, m⟩]
  else [⟨"#" ++ f.id, m⟩]

/-- The element a rule validates. -/
def ruleElem : VRule → Elem
  | .required f _ => f
  | .requiredIf f _ _ _ => f
  | .equalTo f _ _ => f
  | .boolean f _ => f
  | .minLength f _ _ => f
  | .maxLength f _ _ => f
  | .alphabetic f _ => f
  | .alphanumeric f _ => f
  | .patternCheck f _ _ => f
  | .custom f _ _ => f
  | .numeric f _ => f
  | .minValue f _ _ => f
  | .maxValue f _ _ => f
  | .range f _ _ _ => f
  | .fileType f _ _ => f
  | .fileSize f _ _ => f
  | .fileExtension f _ _ => f
  | .date f _ _ _ => f
  | .datetime f _ _ _ => f
  | .time f _ _ _ => f
  | .minDate f _ _ _ _ => f
  | .maxDate f _ _ _ _ => f
  | .minDatetime f _ _ _ _ => f
  | .maxDatetime f _ _ _ _ => f
  | .dateBetween f _ _ _ _ _ => f
  | .datetimeBetween f _ _ _ _ _ => f
  | .email f _ => f
  | .url f _ => f
  | .phoneNumber f _ => f

/-- Whether a rule's failing condition holds; depends only on the rule's
element and arguments, never on the session state. -/
def ruleCond : VRule → Bool
  | .required f _ =>
    (isAnyTag f [.text, .email, .password, .number, .selectTag, .textareaTag]
        && f.value == "")
      || (isAnyTag f [.radio, .checkbox] && f.checked.isNone)
      || (isTag f .file && f.files.length == 0)
  | .requiredIf f other e _ => other.value == e && f.value == ""
  | .equalTo f t _ => f.value != t.value
  | .boolean f _ => !(["true", "false", "1", "0"].contains f.value)
  | .minLength f n _ =>
    isAnyTag f [.text, .email, .password, .textareaTag] && decide (f.value.length < n)
  | .maxLength f n _ =>
    isAnyTag f [.text, .email, .password, .textareaTag] && decide (f.value.length > n)
  | .alphabetic f _ => !(isAnyTag f [.text, .textareaTag]) || !(alphabeticTest f.value)
  | .alphanumeric f _ => isAnyTag f [.text, .textareaTag] && !(alphanumericTest f.value)
  | .patternCheck f g _ => isAnyTag f [.text, .textareaTag] && !(g f.value)
  | .custom f g _ => !(g f.value)
  | .numeric f _ => isAnyTag f [.text, .number, .textareaTag] && !(numericTest f.value)
  | .minValue f v _ => isAnyTag f [.number, .text] && jsLt (jsParseFloat f.value) v
  | .maxValue f v _ => isAnyTag f [.number, .text] && jsGt (jsParseFloat f.value) v
  | .range f a b _ =>
    isAnyTag f [.number, .text]
      && (jsLt (jsParseFloat f.value) a || jsGt (jsParseFloat f.value) b)
  | .fileType f ts _ =>
    isTag f .file && decide (f.files.length > 0)
      && !(ts.contains ((f.files.headD ⟨"", "", 0⟩).type))
  | .fileSize f n _ =>
    isTag f .file && decide (f.files.length > 0)
      && decide ((f.files.headD ⟨"", "", 0⟩).size > n)
  | .fileExtension f es _ =>
    isTag f .file && decide (f.files.length > 0)
      && !(es.contains (Validator.fileExtOf (f.files.headD ⟨"", "", 0⟩).name))
  | .date f fmt _ o => isAnyTag f [.text, .dateInput] && !(o.isValidStrict f.value fmt)
  | .datetime f fmt _ o =>
    isAnyTag f [.text, .datetimeLocal] && !(o.isValidStrict f.value fmt)
  | .time f fmt _ o => isAnyTag f [.text, .timeInput] && !(o.isValidStrict f.value fmt)
  | .minDate f d fmt _ o =>
    isAnyTag f [.text, .dateInput]
      && (!(o.isValidStrict f.value fmt) || o.isBefore f.value d fmt)
  | .maxDate f d fmt _ o =>
    isAnyTag f [.text, .dateInput]
      && (!(o.isValidStrict f.value fmt) || o.isAfter f.value d fmt)
  | .minDatetime f d fmt _ o =>
    isAnyTag f [.text, .datetimeLocal]
      && (!(o.isValidStrict f.value fmt) || o.isBefore f.value d fmt)
  | .maxDatetime f d fmt _ o =>
    isAnyTag f [.text, .datetimeLocal]
      && (!(o.isValidStrict f.value fmt) || o.isAfter f.value d fmt)
  | .dateBetween f s e fmt _ o =>
    isAnyTag f [.text, .dateInput]
      && (!(o.isValidStrict f.value fmt) || !(o.isBetweenIncl f.value s e fmt))
  | .datetimeBetween f s e fmt _ o =>
    isAnyTag f [.text, .datetimeLocal]
      && (!(o.isValidStrict f.value fmt) || !(o.isBetweenIncl f.value s e fmt))
  | .email f _ => isAnyTag f [.text, .email] && !(emailTest f.value)
  | .url f _ => isAnyTag f [.text, .url] && !(urlTest f.value)
  | .phoneNumber f _ => isAnyTag f [.text, .tel] && !(phoneTest f.value)

/-- The resolved message a rule records when it fails. -/
def ruleMsg : VRule → String
  | .required f m =>
    if isAnyTag f [.text, .email, .password, .number, .selectTag, .textareaTag]
        && f.value == "" then resolveMsg m "Wajib diisi."
    else if isAnyTag f [.radio, .checkbox] && f.checked.isNone then
      resolveMsg m "Wajib dipilih."
    else resolveMsg m "Wajib diunggah."
  | .requiredIf _ _ _ m => resolveMsg m "Field ini wajib diisi."
  | .equalTo _ _ m => resolveMsg m "Input tidak sama."
  | .boolean _ m => resolveMsg m "Nilai harus berupa boolean."
  | .minLength _ n m => resolveMsg m ("Minimal " ++ toString n ++ " karakter.")
  | .maxLength _ n m => resolveMsg m ("Maksimal " ++ toString n ++ " karakter.")
  | .alphabetic _ m => resolveMsg m "Tidak boleh mengandung angka."
  | .alphanumeric _ m => resolveMsg m "Hanya boleh mengandung huruf dan angka."
  | .patternCheck _ _ m => resolveMsg m "Format input tidak sesuai."
  | .custom _ _ m => resolveMsg m "Input tidak valid."
  | .numeric _ m => resolveMsg m "Hanya boleh mengandung angka."
  | .minValue _ v m => resolveMsg m ("Nilai minimal adalah " ++ numStr v ++ ".")
  | .maxValue _ v m => resolveMsg m ("Nilai maksimal adalah " ++ numStr v ++ ".")
  | .range _ a b m =>
    resolveMsg m ("Nilai harus antara " ++ numStr a ++ " dan " ++ numStr b ++ ".")
  | .fileType _ _ m => resolveMsg m "Format berkas tidak sesuai."
  | .fileSize _ n m =>
    resolveMsg m ("Ukuran file tidak boleh lebih dari " ++ toFixed2MB n ++ " MB.")
  | .fileExtension _ _ m => resolveMsg m "Ekstensi file tidak diizinkan."
  | .date _ fmt m _ => resolveMsg m ("Tanggal tidak sesuai format " ++ fmt ++ ".")
  | .datetime _ fmt m _ =>
    resolveMsg m ("Format tanggal dan waktu tidak sesuai (" ++ fmt ++ ").")
  | .time _ fmt m _ => resolveMsg m ("Format waktu tidak sesuai (" ++ fmt ++ ").")
  | .minDate _ d fmt m o =>
    resolveMsg m ("Tanggal tidak boleh sebelum " ++ o.reformat d fmt ++ ".")
  | .maxDate _ d fmt m o =>
    resolveMsg m ("Tanggal tidak boleh setelah " ++ o.reformat d fmt ++ ".")
  | .minDatetime _ d fmt m o =>
    resolveMsg m ("Tanggal dan waktu tidak boleh sebelum " ++ o.reformat d fmt ++ ".")
  | .maxDatetime _ d fmt m o =>
    resolveMsg m ("Tanggal dan waktu tidak boleh setelah " ++ o.reformat d fmt ++ ".")
  | .dateBetween _ s e fmt m o =>
    resolveMsg m ("Tanggal harus antara " ++ o.reformat s fmt ++ " dan "
      ++ o.reformat e fmt ++ ".")
  | .datetimeBetween _ s e fmt m o =>
    resolveMsg m ("Tanggal dan waktu harus antara " ++ o.reformat s fmt ++ " dan "
      ++ o.reformat e fmt ++ ".")
  | .email _ m => resolveMsg m "Email tidak sesuai format"
  | .url _ m => resolveMsg m "URL tidak sesuai format."
  | .phoneNumber _ m => resolveMsg m "Nomor telepon tidak valid."

/-- The entries a single `#setErrorMessage` call appends (none for the
empty message). -/
def entriesPushed (f : Elem) (m : String) : List ErrorEntry :=
  if m = "" then [] else entriesFor f m

/-- The `errorMessages` entries one rule appends. -/
def ruleEntries (r : VRule) : List ErrorEntry :=
  if ruleCond r then entriesPushed (ruleElem r) (ruleMsg r) else []

/-- Run the `forEach` part of `validateFields`. -/
def foldRules (rules : List VRule) (w : World) : World :=
  rules.foldl (fun acc v => (runRule v acc).1) w

namespace SAT

/-- ECMAScript `parseInt(v)` (radix 10): skip leading whitespace, optional
sign, then leading decimal digits; `none` models NaN. -/
def jsParseInt (s : String) : Option Int :=
  let l := s.toList.dropWhile jsSpace
  let signedPos : Bool × List Char :=
    match l with
    | '-' :: r => (false, r)
    | '+' :: r => (true, r)
    | _ => (true, l)
  let ds := signedPos.2.takeWhile Char.isDigit
  if ds.isEmpty then none
  else some (if signedPos.1 then (natDigitsVal ds : Int) else -(natDigitsVal ds : Int))

/-- Interpolation of a parseInt result into a template literal: `NaN`
prints as "NaN". -/
def jsIntTemplate : Option Int → String
  | none => "NaN"
  | some i => toString i

/-- Embedding of `SAT.Format._getMonthName(month, locale)` (lines 114-126): index the
locale's month-name table at `parseInt(month) - 1`; an out-of-table index
yields `undefined`, which a template literal prints as "undefined". -/
def getMonthName (month : String) (locale : String) : String :=
  let months :=
    if locale = "en" then
      ["January", "February", "March", "April", "May", "June",
       "July", "August", "September", "October", "November", "December"]
    else
      ["Januari", "Februari", "Maret", "April", "Mei", "Juni",
       "Juli", "Agustus", "September", "Oktober", "November", "Desember"]
  match jsParseInt month with
  | none => "undefined"
  | some i =>
    if 1 ≤ i ∧ i ≤ 12 then months.getD (i - 1).toNat "undefined" else "undefined"

/-- Embedding of `SAT.Format.ToDate(date, locale = 'id')` (lines 43-46): split on `-`
into year, month, day and build `` `${parseInt(day)} ${monthName} ${year}` ``. -/
def formatToDate (dateStr : String) (locale : String) : String :=
  let parts := (splitChars '-' dateStr.toList).map String.mk
  let year := parts.getD 0 "undefined"
  let month := parts.getD 1 "undefined"
  let day := parts.getD 2 "undefined"
  jsIntTemplate (jsParseInt day) ++ " " ++ getMonthName month locale ++ " " ++ year

/-- The tail `(\d{1,2})\s+(\w+)\s+(\d{4})` of the `Parse.ToDate` regex,
after the month-name and year groups: `\s+` and `\w+` here admit only their
maximal munch (shrinking either leaves the next mandatory class facing a
character it rejects), and `\d{4}` consumes exactly four digits with the
rest of the string unconstrained (the pattern has no end anchor). -/
def matchAfterDay (rest : List Char) : Option (String × String) :=
  let sp := rest.takeWhile jsSpace
  if sp.isEmpty then none
  else
    let r1 := rest.dropWhile jsSpace
    let wd := r1.takeWhile isWordChar
    if wd.isEmpty then none
    else
      let r2 := r1.dropWhile isWordChar
      if (r2.takeWhile jsSpace).isEmpty then none
      else
        match r2.dropWhile jsSpace with
        | a :: b :: c :: d :: _ =>
          if a.isDigit && b.isDigit && c.isDigit && d.isDigit then
            some (String.mk wd, String.mk [a, b, c, d])
          else none
        | _ => none

/-- Embedding of `(\d{1,2})\s+(\w+)\s+(\d{4})`: the greedy `\d{1,2}` day group tries two
digits first and backtracks to one. -/
def matchTail (l : List Char) : Option (String × String × String) :=
  match l with
  | c1 :: rest =>
    if c1.isDigit then
      match rest with
      | c2 :: rest2 =>
        if c2.isDigit then
          match matchAfterDay rest2 with
          | some (m, y) => some (String.mk [c1, c2], m, y)
          | none =>
            match matchAfterDay rest with
            | some (m, y) => some (String.mk [c1], m, y)
            | none => none
        else
          match matchAfterDay rest with
          | some (m, y) => some (String.mk [c1], m, y)
          | none => none
      | [] => none
    else none
  | [] => none

/-- Continuation after the optional group's `\w+` prefix: `,?` greedily
consumes a comma when present (when the next character is a comma the
comma-skipping alternative can never reach a digit), then `\s*` admits only
its maximal munch before the mandatory `\d{1,2}`. -/
def afterGroupRest (r : List Char) : Option (String × String × String) :=
  let r1 := if r.headD ' ' = ',' then r.drop 1 else r
  matchTail (r1.dropWhile jsSpace)

/-- The greedy optional group `(?:\w+,?\s*)?` of the `Parse.ToDate`
pattern: try consuming a word prefix of length `k`, `k-1`, ..., `1` (the
backtracking engine shrinks the greedy `\w+` from its maximal munch), then
fall back to the empty alternative in `matchDatePattern`. -/
def tryGroupLens (l : List Char) : Nat → Option (String × String × String)
  | 0 => none
  | k + 1 =>
    match afterGroupRest (l.drop (k + 1)) with
    | some res => some res
    | none => tryGroupLens l k

/-- Embedding of `dateString.match(/^(?:\w+,?\s*)?(\d{1,2})\s+(\w+)\s+(\d{4})/i)`
(line 153), returning the day, month-name and year captures of the first
match found in the engine's backtracking order. -/
def matchDatePattern (s : String) : Option (String × String × String) :=
  let l := s.toList
  match tryGroupLens l (l.takeWhile isWordChar).length with
  | some res => some res
  | none => matchTail l

/-- Embedding of `SAT.Parse._getMonthNumber(monthName)` (lines 191-199). -/
def getMonthNumber (monthName : String) : Int :=
  let months :=
    ["januari", "februari", "maret", "april", "mei", "juni",
     "juli", "agustus", "september", "oktober", "november", "desember"]
  match months.findIdx? (fun m => m = lowerStr monthName) with
  | some i => (i : Int) + 1
  | none => -1

/-- Embedding of `SAT.Parse._padZero(num)` (line 207): `padStart(2, '0')`. -/
def padZero (s : String) : String :=
  if s.length < 2 then String.mk (List.replicate (2 - s.length) '0') ++ s else s

/-- Embedding of `SAT.Parse.ToDate(dateString)` (lines 152-164): match the date
pattern, resolve the month name, and rebuild `` `${year}-${pad(month)}-${pad(day)}` ``;
`Except.error` models the two `throw new Error(...)` sites. -/
def parseToDate (dateString : String) : Except String String :=
  match matchDatePattern dateString with
  | none => Except.error "Format tanggal tidak dikenali."
  | some (day, monthName, year) =>
    let month := getMonthNumber monthName
    if month = -1 then Except.error "Nama bulan tidak valid."
    else Except.ok (year ++ "-" ++ padZero (toString month) ++ "-" ++ padZero day)

end SAT

-- ======================================================================
-- Supporting lemmas
-- ======================================================================

theorem updUI_errors (i : String) (g : UIState → UIState) (w : World) :
    (updUI i g w).errors = w.errors := rfl

theorem updUI_msgs (i : String) (g : UIState → UIState) (w : World) :
    (updUI i g w).errorMessages = w.errorMessages := rfl

theorem setErrorMessage_errors (f : Elem) (m : String) (w : World) :
    (setErrorMessage f m w).errors = w.errors := by
  simp only [setErrorMessage, updUI, pushMsg]
  split <;> split <;> rfl

theorem setErrorMessage_msgs_clear (f : Elem) (w : World) :
    (setErrorMessage f "" w).errorMessages = w.errorMessages := by
  by_cases hs : isTag f .selectTag = true <;>
    simp [setErrorMessage, updUI, pushMsg, hs]

theorem setErrorMessage_msgs (f : Elem) (m : String) (w : World) :
    (setErrorMessage f m w).errorMessages = w.errorMessages ++ entriesPushed f m := by
  by_cases hs : isTag f .selectTag = true <;> by_cases hm : m = "" <;>
    simp [setErrorMessage, entriesPushed, entriesFor, updUI, pushMsg, hs, hm]

theorem setErrorMessage_listeners (f : Elem) (m : String) (w : World) (i : String) :
    ((setErrorMessage f m w).ui i).listeners = (w.ui i).listeners := by
  by_cases hs : isTag f .selectTag = true <;> by_cases hm : m = "" <;>
    simp [setErrorMessage, updUI, pushMsg, hs, hm] <;> split <;> simp_all

theorem setErrorMessage_ui_self (f : Elem) (m : String) (w : World) :
    ((setErrorMessage f m w).ui f.id).isInvalid = (m != "") ∧
      ((setErrorMessage f m w).ui f.id).displayed = m := by
  simp only [setErrorMessage, updUI, pushMsg]
  split <;> split <;> simp_all

theorem failWith_errors (f : Elem) (m : String) (evs : List String) (w : World) :
    (failWith f m evs w).errors = w.errors + 1 := by
  simp [failWith, addListener, updUI, setErrorMessage_errors]

theorem failWith_msgs (f : Elem) (m : String) (evs : List String) (w : World) :
    (failWith f m evs w).errorMessages = w.errorMessages ++ entriesPushed f m := by
  simp [failWith, addListener, updUI, setErrorMessage_msgs]

theorem resolveMsg_ne (m d : String) (h : d ≠ "") : resolveMsg m d ≠ "" := by
  unfold resolveMsg
  split
  · simp_all
  · exact h

theorem guardedCheck_errors (f : Elem) (c : Bool) (d : String) (evs : List String)
    (m : String) (w : World) :
    (guardedCheck f c d evs m w).1.errors = w.errors + (if c then 1 else 0) := by
  unfold guardedCheck
  split <;> simp [failWith_errors, setErrorMessage_errors]

theorem guardedCheck_msgs (f : Elem) (c : Bool) (d : String) (evs : List String)
    (m : String) (w : World) :
    (guardedCheck f c d evs m w).1.errorMessages =
      w.errorMessages ++ (if c then entriesPushed f (resolveMsg m d) else []) := by
  unfold guardedCheck
  split <;> simp [failWith_msgs, setErrorMessage_msgs_clear]

theorem guardedCheck_bool (f : Elem) (c : Bool) (d : String) (evs : List String)
    (m : String) (w : World) :
    (guardedCheck f c d evs m w).2 = !c := by
  unfold guardedCheck
  split <;> simp_all

theorem required_spec (f : Elem) (m : String) (w : World) :
    (Validator.required f m w).1.errors
        = w.errors + (if ruleCond (.required f m) then 1 else 0) ∧
      (Validator.required f m w).1.errorMessages
        = w.errorMessages ++ ruleEntries (.required f m) ∧
      (Validator.required f m w).2 = !(ruleCond (.required f m)) := by
  unfold Validator.required
  by_cases h1 : (isAnyTag f [.text, .email, .password, .number, .selectTag, .textareaTag]
      && f.value == "") = true
  · simp [h1, ruleCond, ruleEntries, ruleMsg, ruleElem, failWith_errors,
      failWith_msgs, setErrorMessage_errors, setErrorMessage_msgs_clear]
  · by_cases h2 : (isAnyTag f [.radio, .checkbox] && f.checked.isNone) = true
    · simp [h1, h2, ruleCond, ruleEntries, ruleMsg, ruleElem, failWith_errors,
        failWith_msgs, setErrorMessage_errors, setErrorMessage_msgs_clear]
    · by_cases h3 : (isTag f .file && f.files.length == 0) = true
      · simp [h1, h2, h3, ruleCond, ruleEntries, ruleMsg, ruleElem, failWith_errors,
          failWith_msgs, setErrorMessage_errors, setErrorMessage_msgs_clear]
      · simp [h1, h2, h3, ruleCond, ruleEntries, ruleMsg, ruleElem,
          setErrorMessage_errors, setErrorMessage_msgs_clear]

theorem runRule_spec (r : VRule) (w : World) :
    (runRule r w).1.errors = w.errors + (if ruleCond r then 1 else 0) ∧
      (runRule r w).1.errorMessages = w.errorMessages ++ ruleEntries r ∧
      (runRule r w).2 = !(ruleCond r) := by
  cases r
  case required f m => exact required_spec f m w
  all_goals
    refine ⟨?_, ?_, ?_⟩ <;>
      simp [runRule, Validator.requiredIf, Validator.equalTo, Validator.boolean,
        Validator.minLength, Validator.maxLength, Validator.alphabetic,
        Validator.alphanumeric, Validator.patternCheck, Validator.custom,
        Validator.numeric, Validator.minValue, Validator.maxValue, Validator.range,
        Validator.fileType, Validator.fileSize, Validator.fileExtension,
        Validator.date, Validator.datetime, Validator.time, Validator.minDate,
        Validator.maxDate, Validator.minDatetime, Validator.maxDatetime,
        Validator.dateBetween, Validator.datetimeBetween, Validator.email,
        Validator.url, Validator.phoneNumber,
        guardedCheck_errors, guardedCheck_msgs, guardedCheck_bool,
        ruleCond, ruleEntries, ruleMsg, ruleElem]

theorem foldRules_spec (rules : List VRule) (w : World) :
    (foldRules rules w).errors = w.errors + rules.countP ruleCond ∧
      (foldRules rules w).errorMessages = w.errorMessages ++ rules.flatMap ruleEntries := by
  induction rules generalizing w with
  | nil => simp [foldRules]
  | cons r rs ih =>
    obtain ⟨he, hm, _⟩ := runRule_spec r w
    have ih' := ih ((runRule r w).1)
    simp only [foldRules, List.foldl_cons] at ih' ⊢
    refine ⟨?_, ?_⟩
    · rw [ih'.1, he, List.countP_cons]
      by_cases hc : ruleCond r = true <;> simp [hc] <;> omega
    · rw [ih'.2, hm, List.flatMap_cons, List.append_assoc]

theorem iterClear_errors (f : Elem) (n : Nat) (w : World) :
    (iterClear f n w).errors = w.errors := by
  induction n generalizing w with
  | zero => rfl
  | succ n ih => simp [iterClear, ih, setErrorMessage_errors]

theorem iterClear_msgs (f : Elem) (n : Nat) (w : World) :
    (iterClear f n w).errorMessages = w.errorMessages := by
  induction n generalizing w with
  | zero => rfl
  | succ n ih => simp [iterClear, ih, setErrorMessage_msgs_clear]

theorem iterClear_clears (f : Elem) (n : Nat) (w : World) (h : 1 ≤ n) :
    ((iterClear f n w).ui f.id).isInvalid = false ∧
      ((iterClear f n w).ui f.id).displayed = "" := by
  induction n generalizing w with
  | zero => omega
  | succ n ih =>
    cases n with
    | zero =>
      have := setErrorMessage_ui_self f "" w
      simpa [iterClear] using this
    | succ k => exact ih (setErrorMessage f "" w) (by omega)

theorem triggerEvent_errors (f : Elem) (ev : String) (w : World) :
    (triggerEvent f ev w).errors = w.errors := by
  simp [triggerEvent, iterClear_errors]

theorem triggerEvent_msgs (f : Elem) (ev : String) (w : World) :
    (triggerEvent f ev w).errorMessages = w.errorMessages := by
  simp [triggerEvent, iterClear_msgs]

theorem stepOp_errors_le (w : World) (op : VOp) : w.errors ≤ (stepOp w op).errors := by
  cases op with
  | rule r =>
    have h := (runRule_spec r w).1
    simp only [stepOp]
    rw [h]
    split <;> omega
  | asyncV f p m =>
    simp only [stepOp, Validator.asyncValidation]
    cases hpv : p (setErrorMessage f "" w |> fun _ => f.value)
    case error e =>
      simp [hpv, setErrorMessage_errors]
    case ok b =>
      cases b <;> simp [hpv, failWith_errors, setErrorMessage_errors]
  | trigger f ev => simp [stepOp, triggerEvent_errors]

theorem runOps_errors_le (ops : List VOp) (w : World) :
    w.errors ≤ (runOps ops w).errors := by
  induction ops generalizing w with
  | nil => simp [runOps]
  | cons op rest ih =>
    calc w.errors ≤ (stepOp w op).errors := stepOp_errors_le w op
    _ ≤ (runOps rest (stepOp w op)).errors := ih (stepOp w op)
    _ = (runOps (op :: rest) w).errors := by simp [runOps]

theorem strApp_ne (a b : String) (ha : a ≠ "") : a ++ b ≠ "" := by
  intro h
  apply ha
  have hl := congrArg String.length h
  rw [String.length_append] at hl
  have ha0 : a.length = 0 := by
    have : String.length "" = 0 := rfl
    omega
  cases a with
  | mk data =>
    cases data with
    | nil => rfl
    | cons c cs => simp [String.length] at ha0

theorem ruleMsg_ne (r : VRule) : ruleMsg r ≠ "" := by
  cases r
  case required f m =>
    simp only [ruleMsg]
    split
    · exact resolveMsg_ne _ _ (by decide)
    · split
      · exact resolveMsg_ne _ _ (by decide)
      · exact resolveMsg_ne _ _ (by decide)
  all_goals
    simp only [ruleMsg]
  all_goals
    refine resolveMsg_ne _ _ ?_
  all_goals
    first
      | decide
      | exact strApp_ne _ _ (by decide)
      | exact strApp_ne _ _ (strApp_ne _ _ (by decide))
      | exact strApp_ne _ _ (strApp_ne _ _ (strApp_ne _ _ (by decide)))
      | exact strApp_ne _ _ (strApp_ne _ _ (strApp_ne _ _ (strApp_ne _ _ (by decide))))

theorem ruleEntries_length (r : VRule)
    (h : isTag (ruleElem r) .selectTag = false) :
    (ruleEntries r).length = if ruleCond r then 1 else 0 := by
  unfold ruleEntries entriesPushed entriesFor
  split
  · simp [h, ruleMsg_ne r]
  · rfl

theorem flatMapEntries_length (rules : List VRule)
    (h : ∀ r ∈ rules, isTag (ruleElem r) .selectTag = false) :
    (rules.flatMap ruleEntries).length = rules.countP ruleCond := by
  induction rules with
  | nil => rfl
  | cons r rs ih =>
    rw [List.flatMap_cons, List.length_append, List.countP_cons,
      ruleEntries_length r (h r (by simp)), ih (fun x hx => h x (by simp [hx]))]
    by_cases hc : ruleCond r = true <;> simp [hc] <;> omega

theorem textlike_not_choice (f : Elem)
    (htag : isAnyTag f
      [.text, .email, .password, .number, .selectTag, .textareaTag] = true) :
    isAnyTag f [.radio, .checkbox] = false ∧ isTag f .file = false := by
  rcases f with ⟨fid, tag, fval, fchk, ffl⟩
  cases tag <;>
    first
      | exact ⟨rfl, rfl⟩
      | exact (Bool.false_ne_true htag).elim

-- ======================================================================
-- Claim theorems
-- ======================================================================

/-- C2: `throwErrorMessage` throws the given message exactly when the
accumulated error count is at least 1, and with zero errors it returns the
session state unchanged (no observable side effect). -/
theorem C2_reportIfFailed_iff (w : World) (msg : String) :
    (throwErrorMessage msg w = Except.error msg ↔ 1 ≤ w.errors) ∧
      (w.errors = 0 → throwErrorMessage msg w = Except.ok w) := by
  unfold throwErrorMessage
  constructor
  · constructor
    · intro h
      by_contra hlt
      rw [if_neg (by omega)] at h
      exact Except.noConfusion h
    · intro h
      rw [if_pos (by omega)]
  · intro h
    rw [if_neg (by omega)]

/-- C2 witness: with a fresh session `throwErrorMessage` returns normally,
and with one recorded error it throws. -/
theorem C2_reportIfFailed_iff_witness :
    throwErrorMessage "stop" freshValidator = Except.ok freshValidator ∧
      throwErrorMessage "stop" ⟨1, [], fun _ => UIState.init⟩ =
        Except.error "stop" :=
  ⟨(C2_reportIfFailed_iff freshValidator "stop").2 rfl,
    (C2_reportIfFailed_iff ⟨1, [], fun _ => UIState.init⟩ "stop").1.mpr (Nat.le_refl 1)⟩

/-- C3 counterexample: the claim says the non-numeric value "abc" fails the
`range(field, 18, 99)` check; in the code `parseFloat("abc")` is NaN, both
NaN comparisons are false, and the check returns true leaving the error
count at 0. -/
theorem C3_range_abc_passes :
    (Validator.range ⟨"age", .text, "abc", none, []⟩ (JSNum.dec 18 0)
        (JSNum.dec 99 0) "" freshValidator).2 = true ∧
      (Validator.range ⟨"age", .text, "abc", none, []⟩ (JSNum.dec 18 0)
        (JSNum.dec 99 0) "" freshValidator).1.errors = 0 := by
  decide

/-- C3 amended: for `range(field, 18, 99)` on a text field, "17" fails and
increments the error count by one, "18" and "99" pass (inclusive bounds),
and the non-numeric "abc" also passes with the error count unchanged,
because the NaN produced by `parseFloat` makes both bound comparisons
false. -/
theorem C3_range_bounds :
    (Validator.range ⟨"age", .text, "17", none, []⟩ (JSNum.dec 18 0)
        (JSNum.dec 99 0) "" freshValidator).2 = false ∧
      (Validator.range ⟨"age", .text, "17", none, []⟩ (JSNum.dec 18 0)
        (JSNum.dec 99 0) "" freshValidator).1.errors = 1 ∧
      (Validator.range ⟨"age", .text, "18", none, []⟩ (JSNum.dec 18 0)
        (JSNum.dec 99 0) "" freshValidator).2 = true ∧
      (Validator.range ⟨"age", .text, "18", none, []⟩ (JSNum.dec 18 0)
        (JSNum.dec 99 0) "" freshValidator).1.errors = 0 ∧
      (Validator.range ⟨"age", .text, "99", none, []⟩ (JSNum.dec 18 0)
        (JSNum.dec 99 0) "" freshValidator).2 = true ∧
      (Validator.range ⟨"age", .text, "99", none, []⟩ (JSNum.dec 18 0)
        (JSNum.dec 99 0) "" freshValidator).1.errors = 0 ∧
      (Validator.range ⟨"age", .text, "abc", none, []⟩ (JSNum.dec 18 0)
        (JSNum.dec 99 0) "" freshValidator).2 = true ∧
      (Validator.range ⟨"age", .text, "abc", none, []⟩ (JSNum.dec 18 0)
        (JSNum.dec 99 0) "" freshValidator).1.errors = 0 := by
  decide

/-- C4: on every text-like element (text, email, password, number, select,
textarea) whose value is the empty string, `required` returns false and
increments the error count by exactly 1. -/
theorem C4_required_empty (w : World) (f : Elem) (m : String)
    (htag : isAnyTag f
      [.text, .email, .password, .number, .selectTag, .textareaTag] = true)
    (hval : f.value = "") :
    (Validator.required f m w).2 = false ∧
      (Validator.required f m w).1.errors = w.errors + 1 := by
  unfold Validator.required
  simp [htag, hval, failWith_errors, setErrorMessage_errors]

/-- C4 witness: an empty text input on a fresh session. -/
theorem C4_required_empty_witness :
    (Validator.required ⟨"u", .text, "", none, []⟩ "" freshValidator).2 = false ∧
      (Validator.required ⟨"u", .text, "", none, []⟩ "" freshValidator).1.errors
        = 0 + 1 :=
  C4_required_empty freshValidator ⟨"u", .text, "", none, []⟩ "" (by decide) rfl

/-- C8: the claim's round trip `Format.ToDate` then `Parse.ToDate` fails
on the valid date 1900-01-15 (in range 1900-2099): formatting gives
"15 Januari 1900", but the parse regex's optional day-name group
`(?:\w+,?\s*)?` greedily eats the first digit of the two-digit day, so the
day capture is "5" and the result is "1900-01-05", not the original
string.  The code contradicts `Parse.ToDate`'s own documented example
("15 Desember 2023" to YYYY-MM-DD form). -/
theorem C8_roundtrip_bug :
    SAT.formatToDate "1900-01-15" "id" = "15 Januari 1900" ∧
      SAT.parseToDate (SAT.formatToDate "1900-01-15" "id") =
        Except.ok "1900-01-05" ∧
      ("1900-01-05" : String) ≠ "1900-01-15" :=
  ⟨rfl, rfl, by decide⟩

/-- C1 counterexample: fail `required` on an empty text field, then
re-validate after the user fills it.  The re-check passes, yet the error
count stays 1 and the stale entry is still in `errorMessages` (only the
displayed message and the `is-invalid` class are cleared), so the claimed
invariant "errorCount equals the number of fields currently contributing an
active (non-empty-message) error" and the claimed removal of the prior
failing entry are both false. -/
theorem C1_stale_entry_counterexample :
    (Validator.required ⟨"f1", .text, "x", none, []⟩ ""
        (Validator.required ⟨"f1", .text, "", none, []⟩ "" freshValidator).1).2
      = true ∧
    (Validator.required ⟨"f1", .text, "x", none, []⟩ ""
        (Validator.required ⟨"f1", .text, "", none, []⟩ "" freshValidator).1).1.errors
      = 1 ∧
    (Validator.required ⟨"f1", .text, "x", none, []⟩ ""
        (Validator.required ⟨"f1", .text, "", none, []⟩ "" freshValidator).1).1.errorMessages
      = [⟨"#f1", "Wajib diisi."⟩] ∧
    ((Validator.required ⟨"f1", .text, "x", none, []⟩ ""
        (Validator.required ⟨"f1", .text, "", none, []⟩ "" freshValidator).1).1.ui
        "f1").displayed = "" ∧
    ((Validator.required ⟨"f1", .text, "x", none, []⟩ ""
        (Validator.required ⟨"f1", .text, "", none, []⟩ "" freshValidator).1).1.ui
        "f1").isInvalid = false := by
  decide

/-- C1 amended: a passing `required` re-check on a text-like field returns
true, clears the field's displayed message and invalid indicator, and
leaves both the error count and the recorded error sequence exactly as
they were — the prior failing entry is retained, not removed, and the
count keeps counting every failure ever recorded.  In particular
validating a fixed passing field twice leaves errorCount unchanged and
appends no entries. -/
theorem C1_revalidation_keeps_state (w : World) (f : Elem) (m : String)
    (htag : isAnyTag f
      [.text, .email, .password, .number, .selectTag, .textareaTag] = true)
    (hval : f.value ≠ "") :
    (Validator.required f m w).2 = true ∧
      (Validator.required f m w).1.errors = w.errors ∧
      (Validator.required f m w).1.errorMessages = w.errorMessages ∧
      ((Validator.required f m w).1.ui f.id).isInvalid = false ∧
      ((Validator.required f m w).1.ui f.id).displayed = "" := by
  obtain ⟨hchoice, hfile⟩ := textlike_not_choice f htag
  have hui := setErrorMessage_ui_self f "" w
  unfold Validator.required
  simp [hval, hchoice, hfile, setErrorMessage_errors, setErrorMessage_msgs_clear]
  simpa using hui

/-- C1 witness: the filled text field passes and changes nothing. -/
theorem C1_revalidation_keeps_state_witness :
    (Validator.required ⟨"f1", .text, "x", none, []⟩ "" freshValidator).2 = true ∧
      (Validator.required ⟨"f1", .text, "x", none, []⟩ "" freshValidator).1.errors
        = freshValidator.errors ∧
      (Validator.required ⟨"f1", .text, "x", none, []⟩ "" freshValidator).1.errorMessages
        = freshValidator.errorMessages ∧
      ((Validator.required ⟨"f1", .text, "x", none, []⟩ "" freshValidator).1.ui
        "f1").isInvalid = false ∧
      ((Validator.required ⟨"f1", .text, "x", none, []⟩ "" freshValidator).1.ui
        "f1").displayed = "" :=
  C1_revalidation_keeps_state freshValidator ⟨"f1", .text, "x", none, []⟩ ""
    (by decide) (by decide)

/-- C5 counterexample: a batch of N = 1 rule with K = 1 failure — `required`
on an empty select — yields errorCount 1 but an error sequence of length 2,
not K, because `#setErrorMessage` pushes a second, id-keyed entry for
select elements. -/
theorem C5_select_double_entry :
    (foldRules [VRule.required ⟨"s1", .selectTag, "", none, []⟩ ""]
        freshValidator).errors = 1 ∧
      (foldRules [VRule.required ⟨"s1", .selectTag, "", none, []⟩ ""]
        freshValidator).errorMessages.length = 2 := by
  decide

/-- C5 amended: `validateFields` on a fresh session runs all rules in order
with no short-circuit; with exactly K failing rules the error count is K
and the error sequence is the in-order concatenation of the failing rules'
entries — one entry per failing rule, except that a failing select element
contributes two — and the aggregated failure is raised exactly when K is at
least 1.  When no rule targets a select, the error sequence has length
exactly K. -/
theorem C5_batch_spec (rules : List VRule) :
    (foldRules rules freshValidator).errors = rules.countP ruleCond ∧
      (foldRules rules freshValidator).errorMessages = rules.flatMap ruleEntries ∧
      (validateFields rules freshValidator =
          Except.error "Masih ada form yang belum diisi atau salah." ↔
        1 ≤ rules.countP ruleCond) ∧
      ((∀ r ∈ rules, isTag (ruleElem r) .selectTag = false) →
        (foldRules rules freshValidator).errorMessages.length
          = rules.countP ruleCond) := by
  obtain ⟨he, hm⟩ := foldRules_spec rules freshValidator
  have hfresh : freshValidator.errors = 0 := rfl
  have hfreshm : freshValidator.errorMessages = [] := rfl
  refine ⟨by rw [he, hfresh]; omega, by rw [hm, hfreshm]; simp, ?_, ?_⟩
  · unfold validateFields throwErrorMessage
    rw [show (rules.foldl (fun acc v => (runRule v acc).1) freshValidator)
        = foldRules rules freshValidator from rfl, he, hfresh]
    constructor
    · intro h
      by_contra hlt
      rw [if_neg (by omega)] at h
      exact Except.noConfusion h
    · intro h
      rw [if_pos (by omega)]
  · intro hns
    rw [hm, hfreshm]
    simpa using flatMapEntries_length rules hns

/-- C5 witness: a two-rule batch on non-select fields where both rules
fail gives errorCount 2, two entries in rule order, and a raised
aggregated failure. -/
theorem C5_batch_spec_witness :
    (foldRules [VRule.required ⟨"f1", .text, "", none, []⟩ "",
        VRule.numeric ⟨"f2", .text, "12a", none, []⟩ ""] freshValidator).errors
      = List.countP ruleCond [VRule.required ⟨"f1", .text, "", none, []⟩ "",
        VRule.numeric ⟨"f2", .text, "12a", none, []⟩ ""] ∧
      validateFields [VRule.required ⟨"f1", .text, "", none, []⟩ "",
          VRule.numeric ⟨"f2", .text, "12a", none, []⟩ ""] freshValidator
        = Except.error "Masih ada form yang belum diisi atau salah." ∧
      (foldRules [VRule.required ⟨"f1", .text, "", none, []⟩ "",
          VRule.numeric ⟨"f2", .text, "12a", none, []⟩ ""]
        freshValidator).errorMessages.length = 2 := by
  have h := C5_batch_spec [VRule.required ⟨"f1", .text, "", none, []⟩ "",
    VRule.numeric ⟨"f2", .text, "12a", none, []⟩ ""]
  refine ⟨h.1, h.2.2.1.mpr (by decide), ?_⟩
  rw [h.2.2.2 (by decide)]
  decide

/-- C6: when the asynchronous predicate passed to `asyncValidation`
rejects, the engine treats the field as failing — it increments the error
count by one and records the generic "Terjadi kesalahan saat validasi."
message — and the call resolves to false; the rejection is recovered inside
the method (its return type is an ordinary result, not an exception). -/
theorem C6_async_rejection (w : World) (f : Elem) (m e : String)
    (p : String → Except String Bool) (hp : p f.value = Except.error e) :
    (Validator.asyncValidation f p m w).2 = false ∧
      (Validator.asyncValidation f p m w).1.errors = w.errors + 1 ∧
      (Validator.asyncValidation f p m w).1.errorMessages.getLast?
        = some ⟨"#" ++ f.id, "Terjadi kesalahan saat validasi."⟩ := by
  unfold Validator.asyncValidation
  rw [hp]
  refine ⟨rfl, by simp [setErrorMessage_errors], ?_⟩
  rw [setErrorMessage_msgs]
  by_cases hs : isTag f .selectTag = true <;>
    simp [entriesPushed, entriesFor, hs]

/-- C6 witness: a concrete rejecting predicate on a fresh session. -/
theorem C6_async_rejection_witness :
    (Validator.asyncValidation ⟨"u", .text, "v", none, []⟩
        (fun _ => Except.error "boom") "" freshValidator).2 = false ∧
      (Validator.asyncValidation ⟨"u", .text, "v", none, []⟩
        (fun _ => Except.error "boom") "" freshValidator).1.errors
        = freshValidator.errors + 1 ∧
      (Validator.asyncValidation ⟨"u", .text, "v", none, []⟩
        (fun _ => Except.error "boom") "" freshValidator).1.errorMessages.getLast?
        = some ⟨"#u", "Terjadi kesalahan saat validasi."⟩ :=
  C6_async_rejection freshValidator ⟨"u", .text, "v", none, []⟩ "" "boom"
    (fun _ => Except.error "boom") rfl

/-- C7 counterexample: after `required` fails on an empty text field, the
attached listener clears the invalid indicator and inline message on the
very next keyup even though the field is still empty and the predicate
still fails — the handler is `() => #setErrorMessage(element)`, which
clears unconditionally instead of re-running the check, refuting "cleared
if and only if the field's predicate now passes". -/
theorem C7_clear_without_recheck :
    ((triggerEvent ⟨"f1", .text, "", none, []⟩ "keyup"
        (Validator.required ⟨"f1", .text, "", none, []⟩ "" freshValidator).1).ui
      "f1").isInvalid = false ∧
    ((triggerEvent ⟨"f1", .text, "", none, []⟩ "keyup"
        (Validator.required ⟨"f1", .text, "", none, []⟩ "" freshValidator).1).ui
      "f1").displayed = "" ∧
    (Validator.required ⟨"f1", .text, "", none, []⟩ ""
        (triggerEvent ⟨"f1", .text, "", none, []⟩ "keyup"
          (Validator.required ⟨"f1", .text, "", none, []⟩ "" freshValidator).1)).2
      = false := by
  decide

/-- C7 amended: every failing `required` check on a text-like field
attaches a keyup/change handler, and firing either event afterwards clears
the invalid indicator and the inline message unconditionally — for every
new field value, passing or not — because the handler calls
`#setErrorMessage(element)` with the empty message instead of re-running
the predicate. -/
theorem C7_listener_clears_unconditionally (w : World) (f : Elem)
    (m v ev : String)
    (htag : isAnyTag f
      [.text, .email, .password, .number, .selectTag, .textareaTag] = true)
    (hval : f.value = "")
    (hev : ev = "keyup" ∨ ev = "change") :
    ((Validator.required f m w).1.ui f.id).listeners.getLast?
        = some ["keyup", "change"] ∧
      ((triggerEvent { f with value := v } ev
          (Validator.required f m w).1).ui f.id).isInvalid = false ∧
      ((triggerEvent { f with value := v } ev
          (Validator.required f m w).1).ui f.id).displayed = "" := by
  have hred : (Validator.required f m w).1
      = failWith f (resolveMsg m "Wajib diisi.") ["keyup", "change"]
          (setErrorMessage f "" w) := by
    unfold Validator.required
    simp [htag, hval]
  have hl : ((Validator.required f m w).1.ui f.id).listeners
      = (w.ui f.id).listeners ++ [["keyup", "change"]] := by
    rw [hred]
    simp [failWith, addListener, updUI, setErrorMessage_listeners]
  have hid : ({ f with value := v } : Elem).id = f.id := rfl
  have hmem : ev ∈ (["keyup", "change"] : List String) := by
    rcases hev with h | h <;> subst h <;> simp
  have hn : 1 ≤ (((Validator.required f m w).1.ui
      ({ f with value := v } : Elem).id).listeners.filter
        (fun evs => evs.contains ev)).length := by
    rw [hid, hl, List.filter_append]
    simp [hmem]
  have hclear := iterClear_clears { f with value := v }
    ((((Validator.required f m w).1.ui
        ({ f with value := v } : Elem).id).listeners.filter
      (fun evs => evs.contains ev)).length) (Validator.required f m w).1 hn
  rw [hid] at hclear
  refine ⟨by rw [hl]; simp, ?_, ?_⟩
  · exact hclear.1
  · exact hclear.2

/-- C7 witness: the empty text field, re-triggered by keyup while still
empty, ends with the indicator and message cleared. -/
theorem C7_listener_clears_unconditionally_witness :
    ((Validator.required ⟨"f1", .text, "", none, []⟩ ""
        freshValidator).1.ui "f1").listeners.getLast?
        = some ["keyup", "change"] ∧
      ((triggerEvent ⟨"f1", .text, "", none, []⟩ "keyup"
          (Validator.required ⟨"f1", .text, "", none, []⟩ ""
            freshValidator).1).ui "f1").isInvalid = false ∧
      ((triggerEvent ⟨"f1", .text, "", none, []⟩ "keyup"
          (Validator.required ⟨"f1", .text, "", none, []⟩ ""
            freshValidator).1).ui "f1").displayed = "" :=
  C7_listener_clears_unconditionally freshValidator
    ⟨"f1", .text, "", none, []⟩ "" "" "keyup" (by decide) rfl (Or.inl rfl)

/-- C9: the error counter is monotonically non-decreasing — no operation of
the embedded class (any synchronous check, the awaited asynchronous check,
or a fired re-check handler) ever decrements or resets it — so once it is
at least 1, `throwErrorMessage` throws after every further operation
sequence, including successful re-validations; only a fresh instance
starts from 0. -/
theorem C9_error_counter_monotone :
    (∀ (w : World) (op : VOp), w.errors ≤ (stepOp w op).errors) ∧
      (∀ (w : World) (ops : List VOp) (msg : String), 1 ≤ w.errors →
        throwErrorMessage msg (runOps ops w) = Except.error msg) ∧
      freshValidator.errors = 0 := by
  refine ⟨stepOp_errors_le, ?_, rfl⟩
  intro w ops msg h
  have hle := runOps_errors_le ops w
  unfold throwErrorMessage
  rw [if_pos (by omega)]

/-- C9 witness: after one failure, re-validating the corrected field
successfully still leaves `throwErrorMessage` throwing. -/
theorem C9_error_counter_monotone_witness :
    throwErrorMessage "halt"
        (runOps [VOp.rule (VRule.required ⟨"f1", .text, "x", none, []⟩ "")]
          ⟨1, [⟨"#f1", "Wajib diisi."⟩], fun _ => UIState.init⟩)
      = Except.error "halt" :=
  C9_error_counter_monotone.2.1
    ⟨1, [⟨"#f1", "Wajib diisi."⟩], fun _ => UIState.init⟩
    [VOp.rule (VRule.required ⟨"f1", .text, "x", none, []⟩ "")] "halt"
    (Nat.le_refl 1)

/-- C10: each type-guarded method returns true and leaves the error count
unchanged on an element that does not match its input-type selector,
whatever the element's value — `minLength`, `maxLength`, `numeric`,
`minValue`, `maxValue`, `range` — except `alphabetic`, whose negated guard
makes any element that is not a text input or textarea fail and increment
the count. -/
theorem C10_type_guard (w : World) (f : Elem) (n : Nat) (a b : JSNum)
    (m : String) :
    (isAnyTag f [.text, .email, .password, .textareaTag] = false →
      (Validator.minLength f n m w).2 = true ∧
        (Validator.minLength f n m w).1.errors = w.errors) ∧
      (isAnyTag f [.text, .email, .password, .textareaTag] = false →
        (Validator.maxLength f n m w).2 = true ∧
          (Validator.maxLength f n m w).1.errors = w.errors) ∧
      (isAnyTag f [.text, .number, .textareaTag] = false →
        (Validator.numeric f m w).2 = true ∧
          (Validator.numeric f m w).1.errors = w.errors) ∧
      (isAnyTag f [.number, .text] = false →
        (Validator.minValue f a m w).2 = true ∧
          (Validator.minValue f a m w).1.errors = w.errors) ∧
      (isAnyTag f [.number, .text] = false →
        (Validator.maxValue f b m w).2 = true ∧
          (Validator.maxValue f b m w).1.errors = w.errors) ∧
      (isAnyTag f [.number, .text] = false →
        (Validator.range f a b m w).2 = true ∧
          (Validator.range f a b m w).1.errors = w.errors) ∧
      (isAnyTag f [.text, .textareaTag] = false →
        (Validator.alphabetic f m w).2 = false ∧
          (Validator.alphabetic f m w).1.errors = w.errors + 1) := by
  refine ⟨fun h => ?_, fun h => ?_, fun h => ?_, fun h => ?_, fun h => ?_,
    fun h => ?_, fun h => ?_⟩ <;>
    simp [Validator.minLength, Validator.maxLength, Validator.numeric,
      Validator.minValue, Validator.maxValue, Validator.range,
      Validator.alphabetic, guardedCheck_bool, guardedCheck_errors,
      failWith_errors, setErrorMessage_errors, h]

/-- C10 witness: a file input matches none of the guards — every listed
method passes it untouched while `alphabetic` fails it. -/
theorem C10_type_guard_witness :
    ((Validator.minLength ⟨"g", .file, "abc", none, []⟩ 5 ""
        freshValidator).2 = true ∧
      (Validator.minLength ⟨"g", .file, "abc", none, []⟩ 5 ""
        freshValidator).1.errors = freshValidator.errors) ∧
      ((Validator.range ⟨"g", .file, "abc", none, []⟩ (JSNum.dec 18 0)
          (JSNum.dec 99 0) "" freshValidator).2 = true ∧
        (Validator.range ⟨"g", .file, "abc", none, []⟩ (JSNum.dec 18 0)
          (JSNum.dec 99 0) "" freshValidator).1.errors
          = freshValidator.errors) ∧
      ((Validator.alphabetic ⟨"g", .file, "abc", none, []⟩ ""
          freshValidator).2 = false ∧
        (Validator.alphabetic ⟨"g", .file, "abc", none, []⟩ ""
          freshValidator).1.errors = freshValidator.errors + 1) := by
  have h := C10_type_guard freshValidator ⟨"g", .file, "abc", none, []⟩ 5
    (JSNum.dec 18 0) (JSNum.dec 99 0) ""
  exact ⟨h.1 (by decide), h.2.2.2.2.2.1 (by decide), h.2.2.2.2.2.2 (by decide)⟩
